import Mathlib

/-!
Verification development for the omnichannel link-triage pipeline.

The JavaScript sources are shallowly embedded as executable Lean
definitions: the quota/rate governor (`MonitoringProcessor`), the
stream-based message bus over a consumer-group durable log
(`MessageBus`), the retrying summarization invoker
(`ContentSummarizer.processMessage`) and the orchestrator's stage
handlers (`setupMessageFlow`).  External collaborators (the Redis
durable log, the LLM, the Notion archive and the Telegram channel) are
modelled as explicit state machines or outcome oracles; everything
else follows the source line by line.
-/

namespace Omni

/-! ## Quota Governor — `src/processors/monitoring-processor` (`MonitoringProcessor`)

Timestamps are modelled as integer milliseconds since the epoch (UTC;
the local-timezone offset of JavaScript `Date` is abstracted away).
-/

/-- Per-dependency governor state: daily quota counter with its reset
boundary, and the sliding-window request timestamps.  Mirrors the
fields set by the `MonitoringProcessor` constructor. -/
structure MonitoringProcessor where
  quotaLimit : Nat
  quotaUsed : Nat
  quotaResetTime : Int
  rateLimit : Nat
  rateWindowMs : Int
  requests : List Int
deriving Repr, DecidableEq

/-- Milliseconds in one day. -/
def msPerDay : Int := 86400000

/-- `_nextMidnight()`: the next day boundary strictly after the start
of the current day (`reset.setHours(24, 0, 0, 0)`). -/
def nextMidnight (now : Int) : Int :=
  (now.fdiv msPerDay + 1) * msPerDay

/-- Errors thrown by the governor checks. -/
inductive GovError where
  | QuotaExceeded
  | RateLimitExceeded
deriving Repr, DecidableEq

/-- `checkQuota(cost)`: reset the counter if `now` crossed the stored
boundary, throw `QuotaExceeded` when `quotaUsed + cost > quotaLimit`,
otherwise increment.  The returned state reflects every mutation the
JavaScript method performs before throwing; the `Option GovError`
component is the thrown error, if any. -/
def checkQuota (m : MonitoringProcessor) (now : Int) (cost : Nat) :
    MonitoringProcessor × Option GovError :=
  let m1 := if now > m.quotaResetTime then
      { m with quotaUsed := 0, quotaResetTime := nextMidnight now }
    else m
  if m1.quotaUsed + cost > m1.quotaLimit then
    (m1, some GovError.QuotaExceeded)
  else
    ({ m1 with quotaUsed := m1.quotaUsed + cost }, none)

/-- `checkRateLimit()`: prune timestamps aged at least `rateWindowMs`,
throw `RateLimitExceeded` when the remaining count reaches
`rateLimit`, otherwise record `now`.  The pruning assignment happens
before the throw, exactly as in the source. -/
def checkRateLimit (m : MonitoringProcessor) (now : Int) :
    MonitoringProcessor × Option GovError :=
  let m1 := { m with requests := m.requests.filter (fun time => now - time < m.rateWindowMs) }
  if m1.requests.length ≥ m1.rateLimit then
    (m1, some GovError.RateLimitExceeded)
  else
    ({ m1 with requests := m1.requests ++ [now] }, none)

/-- Repeated `checkQuota(1)` calls at a fixed instant, stopping at the
first failure: models the "ten sequential `checkQuota(1)`" scenario. -/
def iterateQuota (now : Int) : Nat → MonitoringProcessor → MonitoringProcessor × Option GovError
  | 0, m => (m, none)
  | n + 1, m =>
    match checkQuota m now 1 with
    | (m1, none) => iterateQuota now n m1
    | (m1, some e) => (m1, some e)

/-- A governor configured as in the quota scenario: `quotaLimit = 10`,
fresh counter, day boundary at the first midnight after instant `0`. -/
def quotaScenarioGov : MonitoringProcessor :=
  { quotaLimit := 10
    quotaUsed := 0
    quotaResetTime := nextMidnight 0
    rateLimit := 100
    rateWindowMs := 60000
    requests := [] }

/-- A governor configured as in the rate scenario: `rateLimit = 2`,
`rateWindow = 1000ms`. -/
def rateScenarioGov : MonitoringProcessor :=
  { quotaLimit := 10000
    quotaUsed := 0
    quotaResetTime := nextMidnight 0
    rateLimit := 2
    rateWindowMs := 1000
    requests := [] }

/-- First rate-scenario call, at instant 0. -/
def rateS1 : MonitoringProcessor × Option GovError := checkRateLimit rateScenarioGov 0

/-- Second rate-scenario call, 500ms after the first. -/
def rateS2 : MonitoringProcessor × Option GovError := checkRateLimit rateS1.1 500

/-- Third rate-scenario call, still within 1000ms of the first. -/
def rateS3 : MonitoringProcessor × Option GovError := checkRateLimit rateS2.1 900

/-- Fourth rate-scenario call, exactly 1000ms after the first. -/
def rateS4 : MonitoringProcessor × Option GovError := checkRateLimit rateS3.1 1000

/-- A governor state exhibiting a day-boundary crossing with partially
consumed quota: `quotaLimit = 10`, `quotaUsed = 5`, boundary already in
the past at instant 2000. -/
def c10Gov : MonitoringProcessor :=
  { quotaLimit := 10
    quotaUsed := 5
    quotaResetTime := 1000
    rateLimit := 100
    rateWindowMs := 60000
    requests := [] }

/-- A governor state whose rate window is saturated at instant 900:
`rateLimit = 2` with two recorded timestamps inside the window. -/
def c10RateGov : MonitoringProcessor :=
  { quotaLimit := 10000
    quotaUsed := 0
    quotaResetTime := nextMidnight 0
    rateLimit := 2
    rateWindowMs := 1000
    requests := [0, 500] }

/-! ## Stream Bus — `src/utils/MessageBus.js` (`MessageBus`)

The Durable Log underneath the bus (Redis streams with consumer
groups) is an external collaborator; its state and commands are
modelled below, and the `MessageBus` methods are translated from the
source on top of them.  One `StreamState` models one stream. -/

/-- Modelled from the spec: a pending-entry record of the Durable Log
(consumer name and delivery count for a delivered-but-unacknowledged
entry). -/
structure PendingEntry where
  consumer : String
  deliveryCount : Nat
deriving Repr, DecidableEq

/-- Modelled from the spec: a consumer group of the Durable Log — the
delivery cursor (id of the last entry handed out via `>`), and the
pending-entry set in delivery order. -/
structure GroupState where
  lastDelivered : Nat
  pending : List (Nat × PendingEntry)
deriving Repr, DecidableEq

/-- Modelled from the spec: one stream of the Durable Log — appended
entries `(id, serialized envelope)` in append order with monotonically
assigned ids, the next id to assign, and the stream's consumer
groups. -/
structure StreamState where
  entries : List (Nat × String)
  nextId : Nat
  groups : List (String × GroupState)
deriving Repr, DecidableEq

/-- A stream with no entries and no groups; ids start at 1. -/
def emptyStream : StreamState := ⟨[], 1, []⟩

/-- Association-list lookup for consumer groups. -/
def lookupG : List (String × GroupState) → String → Option GroupState
  | [], _ => none
  | (k, v) :: rest, g => if k = g then some v else lookupG rest g

/-- Association-list update for consumer groups (replace, or append if
absent). -/
def setG : List (String × GroupState) → String → GroupState → List (String × GroupState)
  | [], g, v => [(g, v)]
  | (k, w) :: rest, g, v =>
    if k = g then (g, v) :: rest else (k, w) :: setG rest g v

/-- Modelled from the spec: `XADD stream * message <payload>` — append
with the next monotonically increasing id. -/
def xadd (st : StreamState) (payload : String) : StreamState × Nat :=
  ({ st with entries := st.entries ++ [(st.nextId, payload)], nextId := st.nextId + 1 },
    st.nextId)

/-- Modelled from the spec: `XGROUP CREATE stream group 0 MKSTREAM`,
with the `BUSYGROUP` error swallowed as in `MessageBus.subscribe` —
idempotently create the group with its cursor at 0 (before every
entry). -/
def xgroupCreate (st : StreamState) (g : String) : StreamState :=
  match lookupG st.groups g with
  | some _ => st
  | none => { st with groups := st.groups ++ [(g, ⟨0, []⟩)] }

/-- Modelled from the spec: `XREADGROUP GROUP g c COUNT 1 STREAMS s >`
— deliver the first entry beyond the group's cursor, advancing the
cursor and recording the entry as pending for consumer `c` with
delivery count 1; `none` when no new entry exists (the bounded 2s
block elapsing). -/
def xreadgroupNew (st : StreamState) (g c : String) :
    StreamState × Option (Nat × String) :=
  match lookupG st.groups g with
  | none => (st, none)
  | some gs =>
    match st.entries.find? (fun e => decide (gs.lastDelivered < e.1)) with
    | none => (st, none)
    | some (id, payload) =>
      ({ st with
          groups := setG st.groups g ⟨id, gs.pending ++ [(id, ⟨c, 1⟩)]⟩ },
        some (id, payload))

/-- Modelled from the spec: `XACK stream g id` — remove the entry from
the group's pending set. -/
def xack (st : StreamState) (g : String) (id : Nat) : StreamState :=
  match lookupG st.groups g with
  | none => st
  | some gs =>
    { st with
        groups := setG st.groups g
          ⟨gs.lastDelivered, gs.pending.filter (fun p => decide (p.1 ≠ id))⟩ }

/-- Modelled from the spec: `XCLAIM stream g c 0 id` — reassign a
pending entry to consumer `c`, incrementing its delivery count;
returns the claimed entry, or nothing when `id` is not pending. -/
def xclaim (st : StreamState) (g c : String) (id : Nat) :
    StreamState × Option (Nat × String) :=
  match lookupG st.groups g with
  | none => (st, none)
  | some gs =>
    match gs.pending.find? (fun p => decide (p.1 = id)) with
    | none => (st, none)
    | some (_, pe) =>
      ({ st with
          groups := setG st.groups g
            ⟨gs.lastDelivered,
              gs.pending.map (fun p =>
                if p.1 = id then (id, ⟨c, pe.deliveryCount + 1⟩) else p)⟩ },
        st.entries.find? (fun e => decide (e.1 = id)))

/-- `MessageBus.publish(stream, message)`: append to the log, return
the new entry id. -/
def publish (st : StreamState) (payload : String) : StreamState × Nat :=
  xadd st payload

/-- `MessageBus.getPendingMessages(stream, group)`:
`XPENDING stream group - + 100` — the group's pending entries, capped
at the first 100. -/
def getPendingMessages (st : StreamState) (g : String) : List (Nat × PendingEntry) :=
  match lookupG st.groups g with
  | none => []
  | some gs => gs.pending.take 100

/-- `MessageBus.claimPendingMessage(stream, group, consumer, id)`. -/
def claimPendingMessage (st : StreamState) (g c : String) (id : Nat) :
    StreamState × Option (Nat × String) :=
  xclaim st g c id

/-- One iteration of the body of `MessageBus.subscribe`'s
`while (true)` loop: read up to one new entry; if one is delivered,
invoke the handler on it and `XACK` only when the handler returns
without throwing.  The outcome is `none` (no entry available),
`some (id, none)` (processed and acknowledged) or `some (id, some e)`
(handler threw `e`; no acknowledgment). -/
def subscribeStep (g c : String) (handler : String → Except String Unit)
    (st : StreamState) : StreamState × Option (Nat × Option String) :=
  let r := xreadgroupNew st g c
  match r.2 with
  | none => (r.1, none)
  | some (id, payload) =>
    match handler payload with
    | Except.ok _ => (xack r.1 g id, some (id, none))
    | Except.error e => (r.1, some (id, some e))

/-- Result of running the subscription loop for a bounded number of
iterations: either the fuel ran out with the loop still going, or a
handler exception propagated to `subscribe`'s catch block, which
rethrows it — terminating the loop (`crashed`). -/
inductive LoopResult where
  | outOfFuel
  | crashed (id : Nat) (e : String)
deriving Repr, DecidableEq

/-- The `while (true)` loop of `MessageBus.subscribe`, with explicit
fuel standing in for the unbounded iteration count: each iteration
performs `subscribeStep`; a handler exception exits the loop through
the surrounding try/catch (which logs and rethrows).  Returns the
final stream state, how the loop ended, and the acknowledged entry ids
in order. -/
def subscribeLoop (g c : String) (handler : String → Except String Unit) :
    Nat → StreamState → StreamState × LoopResult × List Nat
  | 0, st => (st, LoopResult.outOfFuel, [])
  | fuel + 1, st =>
    match subscribeStep g c handler st with
    | (st1, some (id, some e)) => (st1, LoopResult.crashed id e, [])
    | (st1, some (id, none)) =>
      let r := subscribeLoop g c handler fuel st1
      (r.1, r.2.1, id :: r.2.2)
    | (st1, none) => subscribeLoop g c handler fuel st1

/-- `MessageBus.subscribe(stream, group, consumer, callback)`:
idempotently create the consumer group, then run the polling loop. -/
def subscribe (st : StreamState) (g c : String)
    (handler : String → Except String Unit) (fuel : Nat) :
    StreamState × LoopResult × List Nat :=
  subscribeLoop g c handler fuel (xgroupCreate st g)

/-- The ids currently pending for a group. -/
def pendingIds (st : StreamState) (g : String) : List Nat :=
  match lookupG st.groups g with
  | none => []
  | some gs => gs.pending.map Prod.fst

/-- A group's delivery cursor (0 when the group does not exist). -/
def lastD (st : StreamState) (g : String) : Nat :=
  match lookupG st.groups g with
  | none => 0
  | some gs => gs.lastDelivered

/-- The entry id the next `subscribeStep` for `(g, c)` would deliver,
if any. -/
def subDelivers (st : StreamState) (g c : String) : Option Nat :=
  ((xreadgroupNew st g c).2).map Prod.fst

/-- The operations a client can run against one stream of the bus:
publish, idempotent group creation, one subscription-loop iteration,
acknowledge, reclaim. -/
inductive BusOp where
  | pub (payload : String)
  | create (g : String)
  | sub (g c : String) (handler : String → Except String Unit)
  | ack (g : String) (id : Nat)
  | claim (g c : String) (id : Nat)

/-- Apply one bus operation to the stream state. -/
def applyOp : BusOp → StreamState → StreamState
  | BusOp.pub p, st => (xadd st p).1
  | BusOp.create g, st => xgroupCreate st g
  | BusOp.sub g c handler, st => (subscribeStep g c handler st).1
  | BusOp.ack g id, st => xack st g id
  | BusOp.claim g c id, st => (xclaim st g c id).1

/-- Apply a sequence of bus operations in order. -/
def applyOps : List BusOp → StreamState → StreamState
  | [], st => st
  | op :: rest, st => applyOps rest (applyOp op st)

/-- Well-formedness of a stream state: every pending entry of every
group has already been delivered, i.e. its id is at most the group's
cursor.  Holds in every reachable state. -/
def WF (st : StreamState) : Prop :=
  ∀ gv ∈ st.groups, ∀ p ∈ gv.2.pending, p.1 ≤ gv.2.lastDelivered

instance (st : StreamState) : Decidable (WF st) := by
  unfold WF; infer_instance

/-- Handler for the single-failure scenario: throws on the first
entry's payload, succeeds on any other. -/
def c3Handler : String → Except String Unit :=
  fun s => if s = "a" then Except.error "boom" else Except.ok ()

/-- A stream holding two entries, `(1, "a")` and `(2, "b")`. -/
def c3Stream0 : StreamState := (xadd (xadd emptyStream "a").1 "b").1

/-- The state after the group is created and one loop iteration ran
(delivering entry 1, whose handler invocation fails). -/
def c3AfterStep : StreamState :=
  (subscribeStep "g" "c" c3Handler (xgroupCreate c3Stream0 "g")).1

/-- Handler that fails on every entry. -/
def alwaysFailHandler : String → Except String Unit :=
  fun _ => Except.error "boom"

/-- Publish `n` entries with payload `"p"`. -/
def publishN : Nat → StreamState → StreamState
  | 0, st => st
  | n + 1, st => publishN n (xadd st "p").1

/-- Run `n` subscription-loop iterations, keeping only the state (each
failing iteration models the single delivery a fresh `subscribe` call
performs before its loop crashes and is restarted). -/
def iterSteps (g c : String) (handler : String → Except String Unit) :
    Nat → StreamState → StreamState
  | 0, st => st
  | n + 1, st => iterSteps g c handler n (subscribeStep g c handler st).1

/-- A reachable state with 101 pending entries in group `"g"`: 101
entries published, then 101 failing deliveries. -/
def c9State : StreamState :=
  iterSteps "g" "c" alwaysFailHandler 101 (xgroupCreate (publishN 101 emptyStream) "g")

/-- A small well-formed state: two entries, both delivered, entry 1
still pending, entry 2 acknowledged. -/
def c9WitnessSt : StreamState :=
  ⟨[(1, "a"), (2, "b")], 3, [("g", ⟨2, [(1, ⟨"c", 1⟩)]⟩)]⟩

/-- A stream with a single entry `(1, "x")` and group `"g"` created. -/
def c5Stream : StreamState := xgroupCreate (xadd emptyStream "x").1 "g"

/-- Handler succeeding on every payload. -/
def alwaysOkHandler : String → Except String Unit := fun _ => Except.ok ()

/-- The state after one successful loop iteration on `c5Stream`. -/
def c5StepSt : StreamState := (subscribeStep "g" "c" alwaysOkHandler c5Stream).1

/-! ## Retrying Invoker — `src/processors/content-summarizer.js`
(`ContentSummarizer.processMessage`) and the orchestrator stage
handlers from `setupMessageFlow` (summarization → notion), with the
notion stage's `NotionProcessor.processMessage`.

The LLM collaborator together with `parseLLMResponse`'s JSON parse is
modelled as an outcome oracle per attempt; Telegram sends are recorded
as emitted notifications; the Notion client (database search/creation
and page creation) is a collaborator outcome. -/

/-- Modelled from the spec: outcome of one summarizer-collaborator
attempt (`this.llm.invoke` followed by `parseLLMResponse`) —
`Summarizer(content) → {summary, tags, resources} | structuredFailure`:
a clean parse, a parsed `{error: …}` object, a parse failure
(`PARSE_ERROR`), a thrown error carrying HTTP status 429, or any other
thrown error. -/
inductive AttemptOutcome where
  | parsedOk (summary : String) (tags : List String)
  | parsedError (msg : String)
  | parseFailure
  | rateLimit (msg : String)
  | otherFailure (msg : String)
deriving Repr, DecidableEq

/-- A thrown JavaScript error as the retry loop inspects it: message,
`AppError` code when present, and HTTP `status` when present (the loop
only retries on `status === 429`). -/
structure JsErr where
  msg : String
  code : Option String
  status : Option Nat
deriving Repr, DecidableEq

/-- The message envelope, restricted to the fields the summarization
and notion stages read or write (`content`, `url`, `chatId`,
`platform`, `title`, `summary`, `tags`, `resources`, `error`,
`summarizationFailed`, `notionPageId`); per-stage timestamps are not
modelled. -/
structure Msg where
  content : String
  url : String
  chatId : Option Nat
  platform : Option String
  title : Option String
  summary : Option String
  tags : List String
  resources : List String
  error : Option String
  summarizationFailed : Bool
  notionPageId : Option String
deriving Repr, DecidableEq

/-- Classification of a user-visible notification: the archive-success
message and the notion-stage summarization-failure message are the two
terminal notifications of the pipeline (spec §7: "Every terminal
outcome … must yield exactly one user-visible notification"); every
other send is progress feedback. -/
inductive NotifKind where
  | progress
  | terminalSuccess
  | terminalFailure
deriving Repr, DecidableEq

/-- A recorded `sendTelegramMessage(chatId, text)` call, tagged with
its role. -/
structure Notif where
  chat : Nat
  text : String
  kind : NotifKind
deriving Repr, DecidableEq

/-- `if (chatId) { await sendTelegramMessage(chatId, text); }` —
records one notification when a chat id is present. -/
def notifIf (c : Option Nat) (t : String) (k : NotifKind) : List Notif :=
  match c with
  | none => []
  | some cn => [⟨cn, t, k⟩]

/-- Number of terminal (non-progress) notifications in a list. -/
def terminalNotifCount (ns : List Notif) : Nat :=
  ns.countP (fun n => decide (n.kind ≠ NotifKind.progress))

/-- "⏳ Processing content (this may take a moment due to rate
limits)..." -/
def processingNotifText : String :=
  "⏳ Processing content (this may take a moment due to rate limits)..."

/-- The retry notification, `Retrying in ${retryDelay / 1000}
seconds...`. -/
def retryNotifText (retryDelay : Nat) : String :=
  "⏳ Rate limit reached. Retrying in " ++ toString (retryDelay / 1000) ++ " seconds..."

/-- The message `parseLLMResponse` sends before throwing
`PARSE_ERROR`. -/
def parseFailNotifText : String :=
  "⚠️ Sorry, could not process the link. LLM did not return valid JSON."

/-- The message sent when the retry budget is exhausted. -/
def exhaustedNotifText : String :=
  "⚠️ Unable to generate summary due to rate limits. Please try again in a few minutes."

/-- The fallback summary placed in the envelope on retry-budget
exhaustion. -/
def fallbackSummaryText : String :=
  "Summary generation temporarily unavailable due to rate limits."

/-- The summarization stage handler's opening progress message. -/
def startSummarizationText : String := "🤖 Starting content summarization..."

/-- The notion stage handler's summarization-failure notification. -/
def summFailNotifText : String :=
  "⚠️ Sorry, couldn\x27t process the link. Unable to detect the page contents for summarization."

/-- The notion stage handler's progress message before archiving. -/
def savingToNotionText : String := "🗂️ Saving to Notion..."

/-- The `NotionProcessor` success notification. -/
def successNotifText (pageTitle platform : String) : String :=
  "✅ Content saved to Notion!\n\nTitle: " ++ pageTitle ++ "\nPlatform: " ++ platform

/-- The `AppError` thrown by `parseLLMResponse` on malformed JSON. -/
def parseErrJs : JsErr := ⟨"Failed to parse LLM response", some "PARSE_ERROR", none⟩

instance {ε α : Type} [DecidableEq ε] [DecidableEq α] : DecidableEq (Except ε α) := fun a b =>
  match a, b with
  | Except.ok x, Except.ok y =>
    if h : x = y then Decidable.isTrue (by rw [h])
    else Decidable.isFalse (by intro hh; cases hh; exact h rfl)
  | Except.ok _, Except.error _ => Decidable.isFalse (by intro hh; cases hh)
  | Except.error _, Except.ok _ => Decidable.isFalse (by intro hh; cases hh)
  | Except.error e, Except.error f =>
    if h : e = f then Decidable.isTrue (by rw [h])
    else Decidable.isFalse (by intro hh; cases hh; exact h rfl)

/-- Result of one `processMessage` invocation: the returned envelope
or thrown error, the notifications sent, and the backoff sleeps
performed (in ms, in order). -/
structure PMResult where
  result : Except JsErr Msg
  notifs : List Notif
  sleeps : List Nat
deriving Repr, DecidableEq

/-- `const maxRetries = 3`. -/
def maxRetries : Nat := 3

/-- The `while (retryCount < maxRetries)` loop of
`ContentSummarizer.processMessage`, with `fuel = maxRetries -
retryCount` making the iteration bound structural.  Each iteration
invokes the collaborator (`oracle retryCount`); a clean parse returns
the enriched envelope; a parsed `{error}` throws `LLM_ERROR`, a parse
failure notifies and throws `PARSE_ERROR`, any other non-429 error
rethrows — all immediately terminal since `error.status !== 429`.  A
429 failure notifies, sleeps `min(1000 * 2^retryCount, 30000)` and
retries; when the budget is exhausted the loop falls through to the
fallback response carrying the last error's message. -/
def pmAttempts (oracle : Nat → AttemptOutcome) (msg : Msg) (resources : List String) :
    Nat → Nat → Option JsErr → PMResult
  | 0, _, lastError =>
    { result := Except.ok { msg with
        summary := some fallbackSummaryText
        tags := ["unprocessed", "rate-limited"]
        resources := resources
        error := lastError.map JsErr.msg }
      notifs := notifIf msg.chatId exhaustedNotifText NotifKind.progress
      sleeps := [] }
  | fuel + 1, retryCount, _ =>
    match oracle retryCount with
    | AttemptOutcome.parsedOk s t =>
      { result := Except.ok { msg with summary := some s, tags := t, resources := resources }
        notifs := []
        sleeps := [] }
    | AttemptOutcome.parsedError m =>
      { result := Except.error ⟨m, some "LLM_ERROR", none⟩, notifs := [], sleeps := [] }
    | AttemptOutcome.parseFailure =>
      { result := Except.error parseErrJs
        notifs := notifIf msg.chatId parseFailNotifText NotifKind.progress
        sleeps := [] }
    | AttemptOutcome.otherFailure m =>
      { result := Except.error ⟨m, none, none⟩, notifs := [], sleeps := [] }
    | AttemptOutcome.rateLimit m =>
      let retryDelay := min (1000 * 2 ^ retryCount) 30000
      let rest := pmAttempts oracle msg resources fuel (retryCount + 1) (some ⟨m, none, some 429⟩)
      { result := rest.result
        notifs := notifIf msg.chatId (retryNotifText retryDelay) NotifKind.progress ++ rest.notifs
        sleeps := retryDelay :: rest.sleeps }

/-- `ContentSummarizer.processMessage(message)`: extract resource
links from the content, notify that processing started, then run the
retry loop; the outer catch (`handleError`) logs and rethrows, leaving
the thrown error unchanged. -/
def processMessage (oracle : Nat → AttemptOutcome) (extract : String → List String)
    (msg : Msg) : PMResult :=
  let resources := extract msg.content
  let r := pmAttempts oracle msg resources maxRetries 0 none
  { result := r.result
    notifs := notifIf msg.chatId processingNotifText NotifKind.progress ++ r.notifs
    sleeps := r.sleeps }

/-- Number of leading rate-limited attempts among the first `fuel`
collaborator outcomes starting at attempt `k`. -/
def lead429 (oracle : Nat → AttemptOutcome) : Nat → Nat → Nat
  | 0, _ => 0
  | fuel + 1, k =>
    match oracle k with
    | AttemptOutcome.rateLimit _ => lead429 oracle fuel (k + 1) + 1
    | _ => 0

/-- The summarization stage handler wired in `setupMessageFlow`:
notify start, call `contentSummarizer.processMessage`, and publish the
result to the summarization stream — a thrown error propagates and
nothing is published.  The first component is the thrown error or the
list of envelopes published toward the notion stage. -/
def summarizationHandler (oracle : Nat → AttemptOutcome) (extract : String → List String)
    (msg : Msg) : Except JsErr (List Msg) × List Notif :=
  match (processMessage oracle extract msg).result with
  | Except.ok res =>
    (Except.ok [res], notifIf msg.chatId startSummarizationText NotifKind.progress
      ++ (processMessage oracle extract msg).notifs)
  | Except.error e =>
    (Except.error e, notifIf msg.chatId startSummarizationText NotifKind.progress
      ++ (processMessage oracle extract msg).notifs)

/-- `'#', '*', '_', '`', '~', '>', '[', ']'` — the characters stripped
by `formatPageTitle`'s markdown-removal regex. -/
def markdownChars : List Char :=
  ['#', '*', '_', Char.ofNat 96, '~', '>', '[', ']']

/-- JavaScript `\s` for the characters that occur here. -/
def isWsChar (ch : Char) : Bool :=
  ch == ' ' || ch == '\t' || ch == '\n' || ch == '\r'

/-- `replace(/\s+/g, ' ')`: collapse whitespace runs to one space; the
flag tracks whether the previous character was whitespace. -/
def collapseWsAux : List Char → Bool → List Char
  | [], _ => []
  | ch :: rest, prevWs =>
    if isWsChar ch then
      if prevWs then collapseWsAux rest true
      else ' ' :: collapseWsAux rest true
    else ch :: collapseWsAux rest false

/-- `NotionProcessor.formatPageTitle(title, summary)`: trimmed title,
else the first line of the summary cut to 100 characters, else
`'Untitled'`; then markdown characters are stripped, whitespace runs
collapsed, and the result trimmed. -/
def formatPageTitle (title summary : Option String) : String :=
  let t0 := match title with
    | none => ""
    | some t => t.trim
  let t1 := if t0 = "" then
      (match summary with
        | none => ""
        | some s => if s = "" then "" else (((s.splitOn "\n").headD "").take 100).trim)
    else t0
  let t2 := if t1 = "" then "Untitled" else t1
  (String.mk (collapseWsAux (String.mk (t2.data.filter (fun ch => ch ∉ markdownChars))).data
    false)).trim

/-- `NotionProcessor.processMessage(message)`: require `platform` and
`url`, run the Notion collaborator (database search/creation plus page
creation, modelled by its combined outcome `arch` returning the new
page id), notify success when a chat id is present, and return the
envelope enriched with the page id; a collaborator failure is logged
and rethrown. -/
def notionProcessMessage (arch : Except JsErr String) (msg : Msg) :
    Except JsErr Msg × List Notif :=
  match msg.platform with
  | none => (Except.error ⟨"Platform is required", some "PLATFORM_MISSING", none⟩, [])
  | some p =>
    if p = "" then
      (Except.error ⟨"Platform is required", some "PLATFORM_MISSING", none⟩, [])
    else if msg.url = "" then
      (Except.error ⟨"URL is required", some "URL_MISSING", none⟩, [])
    else
      match arch with
      | Except.error e => (Except.error e, [])
      | Except.ok pageId =>
        (Except.ok { msg with notionPageId := some pageId },
          notifIf msg.chatId (successNotifText (formatPageTitle msg.title msg.summary) p)
            NotifKind.terminalSuccess)

/-- The notion stage handler wired in `setupMessageFlow`: a
`summarizationFailed` envelope gets exactly the failure notification
and is not archived (early return, nothing published onward —
archiving has no successor topic); otherwise notify progress and run
`notionProcessor.processMessage`, whose own failure propagates. -/
def notionHandler (arch : Except JsErr String) (msg : Msg) :
    Except JsErr Unit × List Notif :=
  if msg.summarizationFailed then
    (Except.ok (), notifIf msg.chatId summFailNotifText NotifKind.terminalFailure)
  else
    match (notionProcessMessage arch msg).1 with
    | Except.ok _ =>
      (Except.ok (), notifIf msg.chatId savingToNotionText NotifKind.progress
        ++ (notionProcessMessage arch msg).2)
    | Except.error e =>
      (Except.error e, notifIf msg.chatId savingToNotionText NotifKind.progress
        ++ (notionProcessMessage arch msg).2)

/-- Collaborator that fails to produce parseable JSON on every
attempt. -/
def c1Oracle : Nat → AttemptOutcome := fun _ => AttemptOutcome.parseFailure

/-- Link extraction returning no links (the concrete content below has
none). -/
def c1Extract : String → List String := fun _ => []

/-- A concrete submitted envelope for the parse-failure scenario. -/
def c1Msg : Msg :=
  { content := "hello"
    url := "https://example.com"
    chatId := some 1
    platform := some "article"
    title := none
    summary := none
    tags := []
    resources := []
    error := none
    summarizationFailed := false
    notionPageId := none }

/-- Collaborator that hits the rate limit on every attempt. -/
def c2Oracle : Nat → AttemptOutcome :=
  fun _ => AttemptOutcome.rateLimit "429 Too Many Requests"

/-- Link extraction returning no links. -/
def c2Extract : String → List String := fun _ => []

/-- A concrete submitted envelope for the retry-exhaustion scenario. -/
def c2Msg : Msg :=
  { content := "some text"
    url := "https://example.com/2"
    chatId := some 2
    platform := some "article"
    title := none
    summary := none
    tags := []
    resources := []
    error := none
    summarizationFailed := false
    notionPageId := none }

/-- Collaborator rate-limited twice, then succeeding. -/
def c6Oracle : Nat → AttemptOutcome :=
  fun k => if k < 2 then AttemptOutcome.rateLimit "rl"
    else AttemptOutcome.parsedOk "a summary" ["tag1", "tag2"]

/-- Link extraction returning no links. -/
def c6Extract : String → List String := fun _ => []

/-- A concrete submitted envelope for the backoff-retry scenario. -/
def c6Msg : Msg :=
  { content := "more text"
    url := "https://example.com/6"
    chatId := some 6
    platform := some "article"
    title := none
    summary := none
    tags := []
    resources := []
    error := none
    summarizationFailed := false
    notionPageId := none }

/-- A concrete envelope flagged `summarizationFailed`, as the notion
stage handler would receive it. -/
def c4FailedMsg : Msg :=
  { content := "content"
    url := "https://example.com/4"
    chatId := some 4
    platform := some "article"
    title := none
    summary := some "a summary"
    tags := ["t"]
    resources := []
    error := none
    summarizationFailed := true
    notionPageId := none }

/-- A concrete summarized envelope ready for archiving. -/
def c4OkMsg : Msg :=
  { content := "content"
    url := "https://example.com/4"
    chatId := some 4
    platform := some "article"
    title := some "A Title"
    summary := some "a summary"
    tags := ["t"]
    resources := []
    error := none
    summarizationFailed := false
    notionPageId := none }

/-! ## Theorems -/

/-- Unfolding of `checkQuota` when "now" has not crossed the stored
boundary: no reset happens. -/
theorem checkQuota_of_not_cross (m : MonitoringProcessor) (now : Int) (cost : Nat)
    (h : ¬ now > m.quotaResetTime) :
    checkQuota m now cost =
      if m.quotaUsed + cost > m.quotaLimit then (m, some GovError.QuotaExceeded)
      else ({ m with quotaUsed := m.quotaUsed + cost }, none) := by
  simp [checkQuota, h]

/-- Unfolding of `checkQuota` when "now" has crossed the stored
boundary: the counter is reset before the limit check. -/
theorem checkQuota_of_cross (m : MonitoringProcessor) (now : Int) (cost : Nat)
    (h : now > m.quotaResetTime) :
    checkQuota m now cost =
      if m.quotaLimit < cost then
        ({ m with quotaUsed := 0, quotaResetTime := nextMidnight now },
          some GovError.QuotaExceeded)
      else
        ({ m with quotaUsed := cost, quotaResetTime := nextMidnight now }, none) := by
  simp [checkQuota, h]

/-- C7: `checkQuota(cost)` resets `quotaUsed` to 0 when "now" has
crossed the last day boundary, fails with `QuotaExceeded` exactly when
`quotaUsed + cost > quotaLimit` (with `quotaUsed` taken after any
reset), and otherwise increments `quotaUsed` by `cost`; with
`quotaLimit = 10` and no boundary crossing, ten sequential
`checkQuota(1)` succeed, the 11th fails, and after a day rollover
`checkQuota(1)` succeeds again. -/
theorem C7_checkQuota_quota_accounting :
    (∀ m : MonitoringProcessor, ∀ now : Int, ∀ cost : Nat, ¬ now > m.quotaResetTime →
      ((checkQuota m now cost).2 = some GovError.QuotaExceeded ↔
        m.quotaLimit < m.quotaUsed + cost)
      ∧ ((checkQuota m now cost).2 = none →
          (checkQuota m now cost).1 = { m with quotaUsed := m.quotaUsed + cost }))
    ∧ (∀ m : MonitoringProcessor, ∀ now : Int, ∀ cost : Nat, now > m.quotaResetTime →
      ((checkQuota m now cost).2 = some GovError.QuotaExceeded ↔ m.quotaLimit < cost)
      ∧ ((checkQuota m now cost).2 = some GovError.QuotaExceeded →
          (checkQuota m now cost).1.quotaUsed = 0)
      ∧ ((checkQuota m now cost).2 = none → (checkQuota m now cost).1.quotaUsed = cost))
    ∧ ((iterateQuota 1000 10 quotaScenarioGov).2 = none
        ∧ (iterateQuota 1000 10 quotaScenarioGov).1.quotaUsed = 10)
    ∧ (iterateQuota 1000 11 quotaScenarioGov).2 = some GovError.QuotaExceeded
    ∧ (checkQuota (iterateQuota 1000 10 quotaScenarioGov).1 (msPerDay + 1) 1).2 = none := by
  refine ⟨?_, ?_, by decide, by decide, by decide⟩
  · intro m now cost h
    rw [checkQuota_of_not_cross m now cost h]
    constructor
    · split_ifs with hc <;> simp [hc]
    · intro h2
      split_ifs at h2 ⊢ <;> simp_all
  · intro m now cost h
    rw [checkQuota_of_cross m now cost h]
    refine ⟨?_, ?_, ?_⟩
    · split_ifs with hc <;> simp [hc]
    · intro h2
      split_ifs at h2 ⊢ <;> simp_all
    · intro h2
      split_ifs at h2 ⊢ <;> simp_all

/-- C7 witness: a successful call with no crossing, at `quotaLimit =
10`, `quotaUsed = 0`, instant 1000 — it succeeds and the counter
becomes 1. -/
theorem C7_checkQuota_quota_accounting_witness :
    (checkQuota quotaScenarioGov 1000 1).2 = none
    ∧ (checkQuota quotaScenarioGov 1000 1).1 = { quotaScenarioGov with quotaUsed := 0 + 1 } := by
  have h := (C7_checkQuota_quota_accounting.1 quotaScenarioGov 1000 1 (by decide)).2
  exact ⟨by decide, h (by decide)⟩

/-- C8: `checkRateLimit` prunes recorded timestamps whose age reaches
`rateWindow`, fails with `RateLimitExceeded` exactly when the
remaining count is at least `rateLimit`, and otherwise records "now";
in the `rateLimit = 2`, `rateWindow = 1000ms` scenario, two calls
within the window succeed, a third within the window fails, and a
fourth succeeds once 1000ms has elapsed since the first. -/
theorem C8_checkRateLimit_sliding_window :
    (∀ m : MonitoringProcessor, ∀ now : Int,
      ((checkRateLimit m now).2 = some GovError.RateLimitExceeded ↔
        m.rateLimit ≤ (m.requests.filter (fun t => now - t < m.rateWindowMs)).length)
      ∧ ((checkRateLimit m now).2 = some GovError.RateLimitExceeded →
          (checkRateLimit m now).1.requests
            = m.requests.filter (fun t => now - t < m.rateWindowMs))
      ∧ ((checkRateLimit m now).2 = none →
          (checkRateLimit m now).1.requests
            = m.requests.filter (fun t => now - t < m.rateWindowMs) ++ [now]))
    ∧ rateS1.2 = none ∧ rateS2.2 = none
    ∧ rateS3.2 = some GovError.RateLimitExceeded
    ∧ rateS4.2 = none := by
  refine ⟨?_, by decide, by decide, by decide, by decide⟩
  intro m now
  refine ⟨?_, ?_, ?_⟩ <;> simp only [checkRateLimit] <;> split_ifs with hc <;>
    simp_all

/-- C8 witness: the first scenario call succeeds and records the
instant 0. -/
theorem C8_checkRateLimit_sliding_window_witness :
    rateS1.1.requests = ([] : List Int).filter (fun t => 0 - t < (1000 : Int)) ++ [0] :=
  (C8_checkRateLimit_sliding_window.1 rateScenarioGov 0).2.2 (by decide)

/-- C10 counterexample: with `quotaUsed = 5`, `quotaLimit = 10`, a
boundary already crossed and `cost = 20`, `checkQuota` throws
`QuotaExceeded` yet changes `quotaUsed` (the day-boundary reset to 0
runs before the failing limit check), refuting "whenever `checkQuota`
throws `QuotaExceeded`, `quotaUsed` is left unchanged". -/
theorem C10_quota_reset_counterexample :
    (checkQuota c10Gov 2000 20).2 = some GovError.QuotaExceeded
    ∧ (checkQuota c10Gov 2000 20).1.quotaUsed ≠ c10Gov.quotaUsed := by
  decide

/-- C10 (amended): a rejected governor check consumes no budget —
whenever `checkQuota` throws `QuotaExceeded` the state changes only by
the day-boundary reset (and `quotaUsed` is unchanged when no boundary
was crossed), and whenever `checkRateLimit` throws `RateLimitExceeded`
the state changes only by pruning of expired timestamps. -/
theorem C10_failed_check_consumes_no_budget :
    (∀ m : MonitoringProcessor, ∀ now : Int, ∀ cost : Nat,
      (checkQuota m now cost).2 = some GovError.QuotaExceeded →
        (checkQuota m now cost).1 =
          (if now > m.quotaResetTime then
            { m with quotaUsed := 0, quotaResetTime := nextMidnight now }
          else m))
    ∧ (∀ m : MonitoringProcessor, ∀ now : Int,
      (checkRateLimit m now).2 = some GovError.RateLimitExceeded →
        (checkRateLimit m now).1 =
          { m with requests := m.requests.filter (fun t => now - t < m.rateWindowMs) }) := by
  constructor
  · intro m now cost h
    by_cases hc : now > m.quotaResetTime
    · rw [checkQuota_of_cross m now cost hc] at h ⊢
      rw [if_pos hc]
      split_ifs at h ⊢ <;> simp_all
    · rw [checkQuota_of_not_cross m now cost hc] at h ⊢
      rw [if_neg hc]
      split_ifs at h ⊢ <;> simp_all
  · intro m now h
    simp only [checkRateLimit] at h ⊢
    split_ifs at h ⊢ <;> simp_all

/-- C10 (amended) witness: the saturated-window state at instant 900
throws `RateLimitExceeded` and keeps exactly its pruned timestamps. -/
theorem C10_failed_check_consumes_no_budget_witness :
    (checkRateLimit c10RateGov 900).1 =
      { c10RateGov with
          requests := c10RateGov.requests.filter (fun t => 900 - t < c10RateGov.rateWindowMs) } :=
  C10_failed_check_consumes_no_budget.2 c10RateGov 900 (by decide)

/-! ### Stream-bus lemmas -/

/-- Looking up the key just set returns the new value. -/
theorem lookupG_setG_self (l : List (String × GroupState)) (g : String) (v : GroupState) :
    lookupG (setG l g v) g = some v := by
  induction l with
  | nil => simp [setG, lookupG]
  | cons hd tl ih =>
    obtain ⟨k, w⟩ := hd
    simp only [setG]
    split_ifs with h
    · simp [lookupG]
    · simp [lookupG, h, ih]

/-- Setting one key leaves lookups of other keys unchanged. -/
theorem lookupG_setG_ne (l : List (String × GroupState)) (g g' : String) (v : GroupState)
    (h : g ≠ g') : lookupG (setG l g v) g' = lookupG l g' := by
  induction l with
  | nil => simp [setG, lookupG, h]
  | cons hd tl ih =>
    obtain ⟨k, w⟩ := hd
    simp only [setG]
    split_ifs with hk
    · subst hk
      simp [lookupG, h]
    · simp [lookupG, ih]

/-- A successful lookup survives appending. -/
theorem lookupG_append_some (l l2 : List (String × GroupState)) (g : String) (gs : GroupState)
    (h : lookupG l g = some gs) : lookupG (l ++ l2) g = some gs := by
  induction l with
  | nil => simp [lookupG] at h
  | cons hd tl ih =>
    obtain ⟨k, w⟩ := hd
    simp only [lookupG] at h ⊢
    split_ifs at h ⊢ with hk
    · exact h
    · exact ih h

/-- A failed lookup continues into the appended tail. -/
theorem lookupG_append_none (l l2 : List (String × GroupState)) (g : String)
    (h : lookupG l g = none) : lookupG (l ++ l2) g = lookupG l2 g := by
  induction l with
  | nil => simp
  | cons hd tl ih =>
    obtain ⟨k, w⟩ := hd
    simp only [lookupG] at h ⊢
    split_ifs at h ⊢ with hk
    · exact ih h

/-- A successful lookup corresponds to list membership. -/
theorem mem_of_lookupG (l : List (String × GroupState)) (g : String) (gs : GroupState)
    (h : lookupG l g = some gs) : (g, gs) ∈ l := by
  induction l with
  | nil => simp [lookupG] at h
  | cons hd tl ih =>
    obtain ⟨k, w⟩ := hd
    simp only [lookupG] at h
    split_ifs at h with hk
    · subst hk
      simp at h
      simp [h]
    · exact List.mem_cons_of_mem _ (ih h)

/-- Every member of `setG l g v` is the new pair or an old member. -/
theorem mem_setG (l : List (String × GroupState)) (g : String) (v : GroupState)
    (gv : String × GroupState) (h : gv ∈ setG l g v) : gv = (g, v) ∨ gv ∈ l := by
  induction l with
  | nil => simp [setG] at h; simp [h]
  | cons hd tl ih =>
    obtain ⟨k, w⟩ := hd
    simp only [setG] at h
    split_ifs at h with hk
    · rcases List.mem_cons.mp h with h1 | h1
      · exact Or.inl h1
      · exact Or.inr (List.mem_cons_of_mem _ h1)
    · rcases List.mem_cons.mp h with h1 | h1
      · exact Or.inr (by simp [h1])
      · rcases ih h1 with h2 | h2
        · exact Or.inl h2
        · exact Or.inr (List.mem_cons_of_mem _ h2)

/-- An empty read (`none`) leaves the stream state untouched. -/
theorem xreadgroupNew_none_state (st st1 : StreamState) (g c : String)
    (h : xreadgroupNew st g c = (st1, none)) : st1 = st := by
  unfold xreadgroupNew at h
  split at h
  · exact (Prod.mk.injEq _ _ _ _ ▸ h).1.symm
  · split at h
    · exact (Prod.mk.injEq _ _ _ _ ▸ h).1.symm
    · simp at h

/-- Characterization of a delivering read: the group existed, the
delivered id lies beyond the cursor, and the group becomes
`⟨id, pending ++ [(id, ⟨c, 1⟩)]⟩` while entries and `nextId` stay. -/
theorem xreadgroupNew_some (st st1 : StreamState) (g c : String) (id : Nat) (p : String)
    (h : xreadgroupNew st g c = (st1, some (id, p))) :
    ∃ gs, lookupG st.groups g = some gs
      ∧ gs.lastDelivered < id
      ∧ st1.groups = setG st.groups g ⟨id, gs.pending ++ [(id, ⟨c, 1⟩)]⟩
      ∧ st1.entries = st.entries ∧ st1.nextId = st.nextId := by
  unfold xreadgroupNew at h
  split at h
  · simp at h
  · rename_i gs hl
    split at h
    · simp at h
    · rename_i eid ep hf
      injection h with h1 h2
      injection h2 with h3
      injection h3 with hid hp
      subst hid
      have hlt : gs.lastDelivered < eid := by
        have hfind := List.find?_some hf
        simpa using hfind
      refine ⟨gs, hl, hlt, ?_, ?_, ?_⟩ <;> rw [← h1]

/-- After a delivering read, the delivered id is pending. -/
theorem mem_pendingIds_of_deliver (st st1 : StreamState) (g c : String) (id : Nat) (p : String)
    (h : xreadgroupNew st g c = (st1, some (id, p))) : id ∈ pendingIds st1 g := by
  obtain ⟨gs, _, _, hg, _, _⟩ := xreadgroupNew_some st st1 g c id p h
  unfold pendingIds
  rw [hg, lookupG_setG_self]
  simp

/-- After `xack st g id`, the id is no longer pending in group `g`. -/
theorem not_mem_pendingIds_xack (st : StreamState) (g : String) (id : Nat) :
    id ∉ pendingIds (xack st g id) g := by
  unfold xack pendingIds
  cases hl : lookupG st.groups g with
  | none => simp [hl]
  | some gs =>
    simp only [lookupG_setG_self]
    intro hmem
    simp only [List.mem_map] at hmem
    obtain ⟨q, hq, hfst⟩ := hmem
    have := List.of_mem_filter hq
    rw [hfst] at this
    simp at this

/-- Case analysis of one `subscribe` loop iteration. -/
theorem subscribeStep_cases (g c : String) (handler : String → Except String Unit)
    (st : StreamState) :
    (subscribeStep g c handler st = (st, none) ∧ xreadgroupNew st g c = (st, none))
    ∨ (∃ st1 id payload, xreadgroupNew st g c = (st1, some (id, payload))
        ∧ ((handler payload = Except.ok ()
              ∧ subscribeStep g c handler st = (xack st1 g id, some (id, none)))
          ∨ (∃ e, handler payload = Except.error e
              ∧ subscribeStep g c handler st = (st1, some (id, some e))))) := by
  have heta : ∀ p : StreamState × Option (Nat × String), p = (p.1, p.2) :=
    fun p => (Prod.mk.eta).symm
  cases ho : (xreadgroupNew st g c).2 with
  | none =>
    have hr := heta (xreadgroupNew st g c)
    rw [ho] at hr
    have hst := xreadgroupNew_none_state st _ g c hr
    rw [hst] at hr
    refine Or.inl ⟨?_, hr⟩
    simp only [subscribeStep, ho]
    rw [hst]
  | some e =>
    obtain ⟨id, payload⟩ := e
    have hr := heta (xreadgroupNew st g c)
    rw [ho] at hr
    refine Or.inr ⟨(xreadgroupNew st g c).1, id, payload, hr, ?_⟩
    cases hh : handler payload with
    | ok u =>
      cases u
      refine Or.inl ⟨rfl, ?_⟩
      simp only [subscribeStep, ho, hh]
    | error e =>
      refine Or.inr ⟨e, rfl, ?_⟩
      simp only [subscribeStep, ho, hh]

/-- C5: for every entry delivered by a `subscribe` loop iteration, the
entry is acknowledged to the consumer group iff the handler invocation
on its payload completed without throwing; on a handler exception no
acknowledgment is issued and the entry remains pending. -/
theorem C5_ack_iff_handler_completed :
    ∀ (st st1 : StreamState) (g c : String) (handler : String → Except String Unit)
      (id : Nat) (out : Option String),
      subscribeStep g c handler st = (st1, some (id, out)) →
      ∃ payload, (xreadgroupNew st g c).2 = some (id, payload)
        ∧ (out = none ↔ handler payload = Except.ok ())
        ∧ (out = none → id ∉ pendingIds st1 g)
        ∧ (∀ e, out = some e → handler payload = Except.error e ∧ id ∈ pendingIds st1 g) := by
  intro st st1 g c handler id out h
  rcases subscribeStep_cases g c handler st with ⟨hs, _⟩ | ⟨st2, id2, payload, hr, hcase⟩
  · rw [hs] at h
    simp at h
  · rcases hcase with ⟨hok, hs⟩ | ⟨e, herr, hs⟩
    · rw [hs] at h
      injection h with h1 h2
      injection h2 with h3
      injection h3 with hid hout
      subst hid
      refine ⟨payload, by rw [hr], ?_, ?_, ?_⟩
      · rw [← hout]; simp [hok]
      · intro _
        rw [← h1]
        exact not_mem_pendingIds_xack st2 g id2
      · intro e2 habs
        rw [← hout] at habs
        simp at habs
    · rw [hs] at h
      injection h with h1 h2
      injection h2 with h3
      injection h3 with hid hout
      subst hid
      refine ⟨payload, by rw [hr], ?_, ?_, ?_⟩
      · rw [← hout]
        constructor
        · intro habs; simp at habs
        · intro habs; rw [herr] at habs; simp at habs
      · intro habs; rw [← hout] at habs; simp at habs
      · intro e2 he2
        rw [← hout] at he2
        have : e = e2 := by simpa using he2
        subst this
        refine ⟨herr, ?_⟩
        rw [← h1]
        exact mem_pendingIds_of_deliver st st2 g c id2 payload hr

/-- C5 witness: on a one-entry stream with a succeeding handler, entry
1 is delivered and acknowledged. -/
theorem C5_ack_iff_handler_completed_witness :
    ∃ payload, (xreadgroupNew c5Stream "g" "c").2 = some (1, payload)
      ∧ ((none : Option String) = none ↔ alwaysOkHandler payload = Except.ok ())
      ∧ ((none : Option String) = none → 1 ∉ pendingIds c5StepSt "g")
      ∧ (∀ e, (none : Option String) = some e →
          alwaysOkHandler payload = Except.error e ∧ 1 ∈ pendingIds c5StepSt "g") :=
  C5_ack_iff_handler_completed c5Stream c5StepSt "g" "c" alwaysOkHandler 1 none (by decide)

/-- C3 counterexample: on a stream holding entries 1 and 2 with a
handler that fails on entry 1, the subscription loop terminates with
the propagated error after the first failure — entry 1 stays pending,
nothing is acknowledged, and entry 2 is never delivered (the cursor
stops at 1) — refuting "a single handler failure never terminates the
consumer's poll loop". -/
theorem C3_single_failure_counterexample :
    (subscribe c3Stream0 "g" "c" c3Handler 5).2.1 = LoopResult.crashed 1 "boom"
    ∧ (subscribe c3Stream0 "g" "c" c3Handler 5).2.2 = []
    ∧ pendingIds (subscribe c3Stream0 "g" "c" c3Handler 5).1 "g" = [1]
    ∧ lastD (subscribe c3Stream0 "g" "c" c3Handler 5).1 "g" = 1 := by
  decide

/-- C3 (amended): `subscribe` polls in an indefinite loop, but on a
handler failure the delivered entry is left pending (never
acknowledged, never retried by the bus) and the error propagates out
of the loop, terminating it — subsequent entries are not delivered by
that `subscribe` call. -/
theorem C3_failure_terminates_loop :
    ∀ (g c : String) (handler : String → Except String Unit) (st st1 : StreamState)
      (id : Nat) (e : String),
      subscribeStep g c handler st = (st1, some (id, some e)) →
      id ∈ pendingIds st1 g
      ∧ ∀ fuel, subscribeLoop g c handler (fuel + 1) st
          = (st1, LoopResult.crashed id e, []) := by
  intro g c handler st st1 id e h
  constructor
  · rcases subscribeStep_cases g c handler st with ⟨hs, _⟩ | ⟨st2, id2, payload, hr, hcase⟩
    · rw [hs] at h; simp at h
    · rcases hcase with ⟨hok, hs⟩ | ⟨e2, herr, hs⟩
      · rw [hs] at h; simp at h
      · rw [hs] at h
        injection h with h1 h2
        injection h2 with h3
        injection h3 with hid hout
        subst hid
        rw [← h1]
        exact mem_pendingIds_of_deliver st st2 g c id2 payload hr
  · intro fuel
    simp only [subscribeLoop, h]

/-- C3 (amended) witness: the concrete failing iteration on
`c3Stream0` leaves entry 1 pending and ends the loop with the error. -/
theorem C3_failure_terminates_loop_witness :
    1 ∈ pendingIds c3AfterStep "g"
    ∧ subscribeLoop "g" "c" c3Handler 5 (xgroupCreate c3Stream0 "g")
        = (c3AfterStep, LoopResult.crashed 1 "boom", []) :=
  ⟨(C3_failure_terminates_loop "g" "c" c3Handler (xgroupCreate c3Stream0 "g")
      c3AfterStep 1 "boom" (by decide)).1,
    (C3_failure_terminates_loop "g" "c" c3Handler (xgroupCreate c3Stream0 "g")
      c3AfterStep 1 "boom" (by decide)).2 4⟩

/-! ### Pending-set invariant lemmas -/

/-- Equal group lookups give equal pending-id views. -/
theorem pendingIds_congr (st1 st2 : StreamState) (g : String)
    (h : lookupG st1.groups g = lookupG st2.groups g) :
    pendingIds st1 g = pendingIds st2 g := by
  unfold pendingIds
  rw [h]

/-- Equal group lookups give equal cursors. -/
theorem lastD_congr (st1 st2 : StreamState) (g : String)
    (h : lookupG st1.groups g = lookupG st2.groups g) :
    lastD st1 g = lastD st2 g := by
  unfold lastD
  rw [h]

/-- `xgroupCreate` either leaves a group's lookup unchanged or creates
it fresh (cursor 0, nothing pending) when it was absent. -/
theorem lookupG_create (st : StreamState) (g0 g : String) :
    lookupG (xgroupCreate st g0).groups g = lookupG st.groups g
    ∨ (lookupG st.groups g = none
        ∧ lookupG (xgroupCreate st g0).groups g = some ⟨0, []⟩) := by
  unfold xgroupCreate
  cases h0 : lookupG st.groups g0 with
  | some gs => exact Or.inl rfl
  | none =>
    by_cases hg : g = g0
    · subst hg
      refine Or.inr ⟨h0, ?_⟩
      show lookupG (st.groups ++ [(g, ⟨0, []⟩)]) g = some ⟨0, []⟩
      rw [lookupG_append_none _ _ _ h0]
      simp [lookupG]
    · show lookupG (st.groups ++ [(g0, ⟨0, []⟩)]) g = lookupG st.groups g ∨ _
      cases hl : lookupG st.groups g with
      | some gs => exact Or.inl (lookupG_append_some _ _ _ _ hl)
      | none =>
        refine Or.inl ?_
        rw [lookupG_append_none _ _ _ hl]
        simp [lookupG, Ne.symm hg]

/-- `xack` on another group leaves a group's lookup unchanged. -/
theorem lookupG_xack_ne (st : StreamState) (g0 : String) (id : Nat) (g : String)
    (h : g ≠ g0) : lookupG (xack st g0 id).groups g = lookupG st.groups g := by
  unfold xack
  cases h0 : lookupG st.groups g0 with
  | none => rfl
  | some gs => exact lookupG_setG_ne _ _ _ _ (Ne.symm h)

/-- `xack` on an existing group filters the acknowledged id out of the
pending set, keeping the cursor. -/
theorem lookupG_xack_self (st : StreamState) (g : String) (id : Nat) (gs : GroupState)
    (h : lookupG st.groups g = some gs) :
    lookupG (xack st g id).groups g
      = some ⟨gs.lastDelivered, gs.pending.filter (fun p => decide (p.1 ≠ id))⟩ := by
  unfold xack
  rw [h]
  exact lookupG_setG_self _ _ _

/-- `pendingIds` at an existing group. -/
theorem pendingIds_some (st : StreamState) (g : String) (gs : GroupState)
    (h : lookupG st.groups g = some gs) :
    pendingIds st g = gs.pending.map Prod.fst := by
  unfold pendingIds
  rw [h]

/-- `pendingIds` at an absent group. -/
theorem pendingIds_none (st : StreamState) (g : String)
    (h : lookupG st.groups g = none) : pendingIds st g = [] := by
  unfold pendingIds
  rw [h]

/-- `lastD` at an existing group. -/
theorem lastD_some (st : StreamState) (g : String) (gs : GroupState)
    (h : lookupG st.groups g = some gs) : lastD st g = gs.lastDelivered := by
  unfold lastD
  rw [h]

/-- `lastD` at an absent group. -/
theorem lastD_none (st : StreamState) (g : String)
    (h : lookupG st.groups g = none) : lastD st g = 0 := by
  unfold lastD
  rw [h]

/-- Reclaiming keeps the pending ids unchanged (only the owning
consumer and delivery count change). -/
theorem pendingIds_xclaim (st : StreamState) (g0 c : String) (id : Nat) (g : String) :
    pendingIds ((xclaim st g0 c id).1) g = pendingIds st g := by
  unfold xclaim
  split
  · rfl
  · rename_i gs h0
    split
    · rfl
    · rename_i fst pe hf
      show pendingIds
          { st with groups := (setG st.groups g0
              ⟨gs.lastDelivered, gs.pending.map (fun p =>
                if p.1 = id then (id, ⟨c, pe.deliveryCount + 1⟩) else p)⟩) } g
          = pendingIds st g
      by_cases hg : g = g0
      · subst hg
        rw [pendingIds_some _ g _ (lookupG_setG_self _ _ _), pendingIds_some st g gs h0]
        simp only [List.map_map]
        congr 1
        funext p
        by_cases hp : p.1 = id <;> simp [Function.comp, hp]
      · exact pendingIds_congr _ st g (lookupG_setG_ne _ _ _ _ (Ne.symm hg))

/-- Reclaiming keeps every group's cursor unchanged. -/
theorem lastD_xclaim (st : StreamState) (g0 c : String) (id : Nat) (g : String) :
    lastD ((xclaim st g0 c id).1) g = lastD st g := by
  unfold xclaim
  split
  · rfl
  · rename_i gs h0
    split
    · rfl
    · rename_i fst pe hf
      show lastD
          { st with groups := (setG st.groups g0
              ⟨gs.lastDelivered, gs.pending.map (fun p =>
                if p.1 = id then (id, ⟨c, pe.deliveryCount + 1⟩) else p)⟩) } g
          = lastD st g
      by_cases hg : g = g0
      · subst hg
        rw [lastD_some _ g _ (lookupG_setG_self _ _ _), lastD_some st g gs h0]
      · exact lastD_congr _ st g (lookupG_setG_ne _ _ _ _ (Ne.symm hg))

/-- A delivering read targets an id strictly beyond the group's
cursor. -/
theorem subDelivers_gt (st : StreamState) (g c : String) (id : Nat)
    (h : subDelivers st g c = some id) : lastD st g < id := by
  unfold subDelivers at h
  cases ho : (xreadgroupNew st g c).2 with
  | none => rw [ho] at h; simp at h
  | some e =>
    obtain ⟨did, payload⟩ := e
    rw [ho] at h
    have hid : did = id := by simpa using h
    have heta : xreadgroupNew st g c = ((xreadgroupNew st g c).1, some (did, payload)) := by
      rw [← ho]
    obtain ⟨gs, hl, hlt, _, _, _⟩ := xreadgroupNew_some st _ g c did payload heta
    rw [lastD_some st g gs hl]
    omega

/-- A pending id survives any single bus operation except its own
acknowledgment (reclaiming merely reassigns it). -/
theorem pending_retention (op : BusOp) (st : StreamState) (g : String) (id : Nat)
    (hWF : WF st) (hmem : id ∈ pendingIds st g) (hne : op ≠ BusOp.ack g id) :
    id ∈ pendingIds (applyOp op st) g := by
  cases op with
  | pub p => exact hmem
  | create g0 =>
    rcases lookupG_create st g0 g with h | ⟨h1, _⟩
    · show id ∈ pendingIds (xgroupCreate st g0) g
      rw [pendingIds_congr _ st g h]
      exact hmem
    · unfold pendingIds at hmem
      rw [h1] at hmem
      simp at hmem
  | ack g0 id0 =>
    show id ∈ pendingIds (xack st g0 id0) g
    by_cases hg : g = g0
    · subst hg
      have hid : id0 ≠ id := fun h => hne (by rw [h])
      unfold pendingIds at hmem ⊢
      cases hl : lookupG st.groups g with
      | none => rw [hl] at hmem; simp at hmem
      | some gs =>
        rw [hl] at hmem
        rw [lookupG_xack_self st g id0 gs hl]
        simp only [List.mem_map] at hmem ⊢
        obtain ⟨p, hp, hpfst⟩ := hmem
        refine ⟨p, List.mem_filter.mpr ⟨hp, ?_⟩, hpfst⟩
        rw [hpfst]
        simp [Ne.symm hid]
    · rw [pendingIds_congr _ st g (lookupG_xack_ne st g0 id0 g hg)]
      exact hmem
  | claim g0 c id0 =>
    show id ∈ pendingIds ((xclaim st g0 c id0).1) g
    rw [pendingIds_xclaim]
    exact hmem
  | sub g0 c handler =>
    show id ∈ pendingIds ((subscribeStep g0 c handler st).1) g
    rcases subscribeStep_cases g0 c handler st with ⟨hs, _⟩ | ⟨st1, did, payload, hr, hcase⟩
    · rw [hs]
      exact hmem
    · obtain ⟨gs0, hl0, hlt, hg1, _, _⟩ := xreadgroupNew_some st st1 g0 c did payload hr
      rcases hcase with ⟨hok, hs⟩ | ⟨e, herr, hs⟩
      · rw [hs]
        show id ∈ pendingIds (xack st1 g0 did) g
        by_cases hg : g = g0
        · subst hg
          have hlk1 : lookupG st1.groups g = some ⟨did, gs0.pending ++ [(did, ⟨c, 1⟩)]⟩ := by
            rw [hg1, lookupG_setG_self]
          unfold pendingIds at hmem ⊢
          rw [lookupG_xack_self st1 g did _ hlk1]
          rw [hl0] at hmem
          simp only [List.mem_map] at hmem ⊢
          obtain ⟨p, hp, hpfst⟩ := hmem
          have hple : p.1 ≤ gs0.lastDelivered :=
            hWF (g, gs0) (mem_of_lookupG _ _ _ hl0) p hp
          have hpne : p.1 ≠ did := by omega
          refine ⟨p, List.mem_filter.mpr ⟨List.mem_append_left _ hp, ?_⟩, hpfst⟩
          simp [hpne]
        · unfold pendingIds at hmem ⊢
          rw [lookupG_xack_ne st1 g0 did g hg, hg1,
            lookupG_setG_ne _ _ _ _ (Ne.symm hg)]
          exact hmem
      · rw [hs]
        show id ∈ pendingIds st1 g
        by_cases hg : g = g0
        · subst hg
          unfold pendingIds at hmem ⊢
          rw [hg1, lookupG_setG_self]
          rw [hl0] at hmem
          simp only [List.mem_map] at hmem ⊢
          obtain ⟨p, hp, hpfst⟩ := hmem
          exact ⟨p, List.mem_append_left _ hp, hpfst⟩
        · unfold pendingIds at hmem ⊢
          rw [hg1, lookupG_setG_ne _ _ _ _ (Ne.symm hg)]
          exact hmem

/-- `xack` preserves well-formedness. -/
theorem WF_xack (st : StreamState) (g : String) (id : Nat) (h : WF st) :
    WF (xack st g id) := by
  unfold xack
  split
  · exact h
  · rename_i gs h0
    intro gv hgv p hp
    rcases mem_setG _ _ _ _ hgv with h1 | h1
    · subst h1
      have hp2 := List.mem_of_mem_filter hp
      exact h (g, gs) (mem_of_lookupG _ _ _ h0) p hp2
    · exact h gv h1 p hp

/-- After a delivering read the stream state is still well-formed. -/
theorem WF_deliver (st st1 : StreamState) (g c : String) (id : Nat) (p : String)
    (h : WF st) (hr : xreadgroupNew st g c = (st1, some (id, p))) : WF st1 := by
  obtain ⟨gs0, hl0, hlt, hg1, _, _⟩ := xreadgroupNew_some st st1 g c id p hr
  intro gv hgv q hq
  rw [hg1] at hgv
  rcases mem_setG _ _ _ _ hgv with h1 | h1
  · subst h1
    show q.1 ≤ id
    rcases List.mem_append.mp hq with h2 | h2
    · have h3 : q.1 ≤ gs0.lastDelivered := h (g, gs0) (mem_of_lookupG _ _ _ hl0) q h2
      omega
    · simp at h2
      rw [h2]
  · exact h gv h1 q hq

/-- Every bus operation preserves well-formedness. -/
theorem WF_applyOp (op : BusOp) (st : StreamState) (h : WF st) : WF (applyOp op st) := by
  cases op with
  | pub p => exact fun gv hgv => h gv hgv
  | create g0 =>
    show WF (xgroupCreate st g0)
    unfold xgroupCreate
    split
    · exact h
    · intro gv hgv p hp
      rcases List.mem_append.mp hgv with h1 | h1
      · exact h gv h1 p hp
      · simp at h1
        subst h1
        simp at hp
  | ack g0 id0 => exact WF_xack st g0 id0 h
  | claim g0 c id0 =>
    show WF ((xclaim st g0 c id0).1)
    unfold xclaim
    split
    · exact h
    · rename_i gs h0
      split
      · exact h
      · rename_i fst pe hf
        intro gv hgv p hp
        rcases mem_setG _ _ _ _ hgv with h1 | h1
        · subst h1
          simp only [List.mem_map] at hp
          obtain ⟨q, hq, hfq⟩ := hp
          have hle := h (g0, gs) (mem_of_lookupG _ _ _ h0) q hq
          subst hfq
          show (if q.1 = id0 then ((id0, ⟨c, pe.deliveryCount + 1⟩) : Nat × PendingEntry)
              else q).1 ≤ gs.lastDelivered
          by_cases hq1 : q.1 = id0
          · simp only [hq1, if_pos rfl]
            exact hq1 ▸ hle
          · simp only [if_neg hq1]
            exact hle
        · exact h gv h1 p hp
  | sub g0 c handler =>
    show WF ((subscribeStep g0 c handler st).1)
    rcases subscribeStep_cases g0 c handler st with ⟨hs, _⟩ | ⟨st1, did, payload, hr, hcase⟩
    · rw [hs]; exact h
    · have hWF1 : WF st1 := WF_deliver st st1 g0 c did payload h hr
      rcases hcase with ⟨hok, hs⟩ | ⟨e, herr, hs⟩
      · rw [hs]
        exact WF_xack st1 g0 did hWF1
      · rw [hs]
        exact hWF1

/-- An already-acknowledged id (not pending, at or below the cursor)
stays so across `xack`. -/
theorem acked_stable_xack (st : StreamState) (g0 : String) (id0 : Nat) (g : String)
    (id : Nat) (h1 : id ∉ pendingIds st g) (h2 : id ≤ lastD st g) :
    id ∉ pendingIds (xack st g0 id0) g ∧ id ≤ lastD (xack st g0 id0) g := by
  by_cases hg : g = g0
  · subst hg
    cases hl : lookupG st.groups g with
    | none =>
      have heq : xack st g id0 = st := by unfold xack; rw [hl]
      rw [heq]
      exact ⟨h1, h2⟩
    | some gs =>
      constructor
      · rw [pendingIds_some _ g _ (lookupG_xack_self st g id0 gs hl)]
        rw [pendingIds_some st g gs hl] at h1
        intro hmem
        simp only [List.mem_map] at hmem
        obtain ⟨p, hp, hpf⟩ := hmem
        exact h1 (by
          simp only [List.mem_map]
          exact ⟨p, List.mem_of_mem_filter hp, hpf⟩)
      · rw [lastD_some _ g _ (lookupG_xack_self st g id0 gs hl)]
        rw [lastD_some st g gs hl] at h2
        exact h2
  · constructor
    · rw [pendingIds_congr _ st g (lookupG_xack_ne st g0 id0 g hg)]
      exact h1
    · rw [lastD_congr _ st g (lookupG_xack_ne st g0 id0 g hg)]
      exact h2

/-- An already-acknowledged id stays non-pending and at or below the
cursor across every single bus operation. -/
theorem acked_stable (op : BusOp) (st : StreamState) (g : String) (id : Nat)
    (h1 : id ∉ pendingIds st g) (h2 : id ≤ lastD st g) :
    id ∉ pendingIds (applyOp op st) g ∧ id ≤ lastD (applyOp op st) g := by
  cases op with
  | pub p => exact ⟨h1, h2⟩
  | create g0 =>
    show id ∉ pendingIds (xgroupCreate st g0) g ∧ id ≤ lastD (xgroupCreate st g0) g
    rcases lookupG_create st g0 g with hc | ⟨hc1, hc2⟩
    · exact ⟨by rw [pendingIds_congr _ st g hc]; exact h1,
        by rw [lastD_congr _ st g hc]; exact h2⟩
    · constructor
      · rw [pendingIds_some _ g ⟨0, []⟩ hc2]
        simp
      · rw [lastD_some _ g ⟨0, []⟩ hc2]
        rw [lastD_none st g hc1] at h2
        exact h2
  | ack g0 id0 => exact acked_stable_xack st g0 id0 g id h1 h2
  | claim g0 c id0 =>
    constructor
    · show id ∉ pendingIds ((xclaim st g0 c id0).1) g
      rw [pendingIds_xclaim]
      exact h1
    · show id ≤ lastD ((xclaim st g0 c id0).1) g
      rw [lastD_xclaim]
      exact h2
  | sub g0 c handler =>
    show id ∉ pendingIds ((subscribeStep g0 c handler st).1) g
      ∧ id ≤ lastD ((subscribeStep g0 c handler st).1) g
    rcases subscribeStep_cases g0 c handler st with ⟨hs, _⟩ | ⟨st1, did, payload, hr, hcase⟩
    · rw [hs]; exact ⟨h1, h2⟩
    · obtain ⟨gs0, hl0, hlt, hg1, _, _⟩ := xreadgroupNew_some st st1 g0 c did payload hr
      have hst1 : id ∉ pendingIds st1 g ∧ id ≤ lastD st1 g := by
        by_cases hg : g = g0
        · subst hg
          have hlk1 : lookupG st1.groups g = some ⟨did, gs0.pending ++ [(did, ⟨c, 1⟩)]⟩ := by
            rw [hg1]; exact lookupG_setG_self _ _ _
          rw [lastD_some st g gs0 hl0] at h2
          rw [pendingIds_some st g gs0 hl0] at h1
          constructor
          · rw [pendingIds_some st1 g _ hlk1]
            intro hmem
            simp only [List.mem_map] at hmem
            obtain ⟨p, hp, hpf⟩ := hmem
            rcases List.mem_append.mp hp with hp1 | hp1
            · exact h1 (by simp only [List.mem_map]; exact ⟨p, hp1, hpf⟩)
            · simp at hp1
              rw [hp1] at hpf
              simp at hpf
              omega
          · rw [lastD_some st1 g _ hlk1]
            show id ≤ did
            omega
        · have hlk : lookupG st1.groups g = lookupG st.groups g := by
            rw [hg1]; exact lookupG_setG_ne _ _ _ _ (Ne.symm hg)
          exact ⟨by rw [pendingIds_congr st1 st g hlk]; exact h1,
            by rw [lastD_congr st1 st g hlk]; exact h2⟩
      rcases hcase with ⟨hok, hs⟩ | ⟨e, herr, hs⟩
      · rw [hs]
        exact acked_stable_xack st1 g0 did g id hst1.1 hst1.2
      · rw [hs]
        exact hst1

/-- A pending id survives any operation sequence not containing its
acknowledgment. -/
theorem pending_retained_trace (g : String) (id : Nat) :
    ∀ (ops : List BusOp) (st : StreamState), WF st → id ∈ pendingIds st g →
      BusOp.ack g id ∉ ops → id ∈ pendingIds (applyOps ops st) g := by
  intro ops
  induction ops with
  | nil => intro st _ hmem _; exact hmem
  | cons op rest ih =>
    intro st hWF hmem hne
    have hop : op ≠ BusOp.ack g id := fun h => hne (by rw [h]; exact List.mem_cons_self _ _)
    have hrest : BusOp.ack g id ∉ rest := fun h => hne (List.mem_cons_of_mem _ h)
    have hmem1 := pending_retention op st g id hWF hmem hop
    have hWF1 := WF_applyOp op st hWF
    exact ih (applyOp op st) hWF1 hmem1 hrest

/-- An acknowledged id is never delivered again by any later
subscription read, whatever bus operations happen in between. -/
theorem acked_never_redelivered (g : String) (id : Nat) :
    ∀ (ops : List BusOp) (st : StreamState),
      id ∉ pendingIds st g → id ≤ lastD st g →
      ∀ c, subDelivers (applyOps ops st) g c ≠ some id := by
  intro ops
  induction ops with
  | nil =>
    intro st h1 h2 c h
    have := subDelivers_gt st g c id h
    omega
  | cons op rest ih =>
    intro st h1 h2 c
    have hs := acked_stable op st g id h1 h2
    exact ih (applyOp op st) hs.1 hs.2 c

set_option maxRecDepth 40000 in
/-- C9 counterexample: after 101 published entries and 101 failing
deliveries, entry 101 is in group `"g"`'s pending set but absent from
`getPendingMessages` (which passes a hard count of 100 to `XPENDING`)
— refuting "a delivered-but-unacknowledged entry remains visible via
`pending()`". -/
theorem C9_pending_cap_counterexample :
    101 ∈ pendingIds c9State "g"
    ∧ 101 ∉ (getPendingMessages c9State "g").map Prod.fst := by
  decide

/-- C9 (amended): every entry delivered to a consumer group is held in
the group's pending set until acknowledged or reclaimed — it survives
every bus operation other than its own acknowledgment (reclaiming only
reassigns it), an acknowledged entry is never redelivered to any
consumer of the group by any later operation sequence, and a
delivered-but-unacknowledged entry is visible via `pending()` whenever
the group holds at most 100 pending entries (`getPendingMessages` caps
its inspection at the first 100). -/
theorem C9_pending_entry_invariant :
    (∀ (ops : List BusOp) (st : StreamState) (g : String) (id : Nat),
      WF st → id ∈ pendingIds st g → BusOp.ack g id ∉ ops →
        id ∈ pendingIds (applyOps ops st) g)
    ∧ (∀ (st : StreamState) (g : String) (id : Nat),
      id ∉ pendingIds st g → id ≤ lastD st g →
        ∀ (ops : List BusOp) (c : String),
          subDelivers (applyOps ops st) g c ≠ some id)
    ∧ (∀ (st : StreamState) (g : String) (gs : GroupState) (id : Nat),
      lookupG st.groups g = some gs → gs.pending.length ≤ 100 →
        id ∈ pendingIds st g → id ∈ (getPendingMessages st g).map Prod.fst) := by
  refine ⟨?_, ?_, ?_⟩
  · intro ops st g id hWF hmem hne
    exact pending_retained_trace g id ops st hWF hmem hne
  · intro st g id h1 h2 ops c
    exact acked_never_redelivered g id ops st h1 h2 c
  · intro st g gs id hl hlen hmem
    unfold getPendingMessages
    rw [hl]
    show id ∈ (gs.pending.take 100).map Prod.fst
    rw [List.take_of_length_le hlen]
    rw [pendingIds_some st g gs hl] at hmem
    exact hmem

/-- C9 (amended) witness: in a concrete well-formed state with entry 1
pending and entry 2 acknowledged, entry 1 survives a publish, entry 2
is not redelivered by a later subscription read, and entry 1 is
visible via `getPendingMessages`. -/
theorem C9_pending_entry_invariant_witness :
    1 ∈ pendingIds (applyOps [BusOp.pub "z"] c9WitnessSt) "g"
    ∧ subDelivers (applyOps [BusOp.sub "g" "c2" alwaysOkHandler] c9WitnessSt) "g" "c2"
        ≠ some 2
    ∧ 1 ∈ (getPendingMessages c9WitnessSt "g").map Prod.fst :=
  ⟨C9_pending_entry_invariant.1 [BusOp.pub "z"] c9WitnessSt "g" 1
      (by decide) (by decide) (by simp),
    C9_pending_entry_invariant.2.1 c9WitnessSt "g" 2 (by decide) (by decide)
      [BusOp.sub "g" "c2" alwaysOkHandler] "c2",
    C9_pending_entry_invariant.2.2 c9WitnessSt "g" ⟨2, [(1, ⟨"c", 1⟩)]⟩ 1
      (by decide) (by decide) (by decide)⟩

/-! ### Retrying-invoker lemmas -/

/-- Unfolding of one rate-limited retry-loop iteration. -/
theorem pmAttempts_rateLimit (oracle : Nat → AttemptOutcome) (msg : Msg)
    (resources : List String) (fuel k : Nat) (lastErr : Option JsErr) (m : String)
    (h : oracle k = AttemptOutcome.rateLimit m) :
    pmAttempts oracle msg resources (fuel + 1) k lastErr =
      { result := (pmAttempts oracle msg resources fuel (k + 1) (some ⟨m, none, some 429⟩)).result
        notifs := notifIf msg.chatId (retryNotifText (min (1000 * 2 ^ k) 30000)) NotifKind.progress
          ++ (pmAttempts oracle msg resources fuel (k + 1) (some ⟨m, none, some 429⟩)).notifs
        sleeps := min (1000 * 2 ^ k) 30000
          :: (pmAttempts oracle msg resources fuel (k + 1) (some ⟨m, none, some 429⟩)).sleeps } := by
  simp [pmAttempts, h]

/-- Unfolding of a clean-parse retry-loop iteration. -/
theorem pmAttempts_parsedOk (oracle : Nat → AttemptOutcome) (msg : Msg)
    (resources : List String) (fuel k : Nat) (lastErr : Option JsErr)
    (s : String) (t : List String) (h : oracle k = AttemptOutcome.parsedOk s t) :
    pmAttempts oracle msg resources (fuel + 1) k lastErr =
      { result := Except.ok { msg with summary := some s, tags := t, resources := resources }
        notifs := []
        sleeps := [] } := by
  simp [pmAttempts, h]

/-- Unfolding of a parse-failure retry-loop iteration: the
`PARSE_ERROR` is rethrown without any retry. -/
theorem pmAttempts_parseFailure (oracle : Nat → AttemptOutcome) (msg : Msg)
    (resources : List String) (fuel k : Nat) (lastErr : Option JsErr)
    (h : oracle k = AttemptOutcome.parseFailure) :
    pmAttempts oracle msg resources (fuel + 1) k lastErr =
      { result := Except.error parseErrJs
        notifs := notifIf msg.chatId parseFailNotifText NotifKind.progress
        sleeps := [] } := by
  simp [pmAttempts, h]

/-- `processMessage`'s returned value is that of the retry loop. -/
theorem processMessage_result (oracle : Nat → AttemptOutcome)
    (extract : String → List String) (msg : Msg) :
    (processMessage oracle extract msg).result
      = (pmAttempts oracle msg (extract msg.content) maxRetries 0 none).result := rfl

/-- `processMessage`'s notifications are the opening progress message
followed by the loop's. -/
theorem processMessage_notifs (oracle : Nat → AttemptOutcome)
    (extract : String → List String) (msg : Msg) :
    (processMessage oracle extract msg).notifs
      = notifIf msg.chatId processingNotifText NotifKind.progress
        ++ (pmAttempts oracle msg (extract msg.content) maxRetries 0 none).notifs := rfl

/-- `processMessage`'s sleeps are those of the retry loop. -/
theorem processMessage_sleeps (oracle : Nat → AttemptOutcome)
    (extract : String → List String) (msg : Msg) :
    (processMessage oracle extract msg).sleeps
      = (pmAttempts oracle msg (extract msg.content) maxRetries 0 none).sleeps := rfl

/-- The sleeps performed by the retry loop are exactly the capped
exponential delays for its leading run of rate-limited attempts. -/
theorem pmAttempts_sleeps_formula (oracle : Nat → AttemptOutcome) (msg : Msg)
    (resources : List String) :
    ∀ (fuel k : Nat) (lastErr : Option JsErr),
      (pmAttempts oracle msg resources fuel k lastErr).sleeps
        = (List.range (lead429 oracle fuel k)).map (fun i => min (1000 * 2 ^ (k + i)) 30000) := by
  intro fuel
  induction fuel with
  | zero => intro k le; simp [pmAttempts, lead429]
  | succ fuel ih =>
    intro k le
    cases ho : oracle k with
    | parsedOk s t => simp [pmAttempts, lead429, ho]
    | parsedError m => simp [pmAttempts, lead429, ho]
    | parseFailure => simp [pmAttempts, lead429, ho]
    | otherFailure m => simp [pmAttempts, lead429, ho]
    | rateLimit m =>
      rw [pmAttempts_rateLimit oracle msg resources fuel k le m ho]
      show min (1000 * 2 ^ k) 30000
          :: (pmAttempts oracle msg resources fuel (k + 1) (some ⟨m, none, some 429⟩)).sleeps
        = _
      rw [ih (k + 1) (some ⟨m, none, some 429⟩)]
      have hl : lead429 oracle (fuel + 1) k = lead429 oracle fuel (k + 1) + 1 := by
        simp [lead429, ho]
      rw [hl, List.range_succ_eq_map, List.map_cons, List.map_map]
      congr 1
      apply List.map_congr_left
      intro i hi
      have harith : k + 1 + i = k + (i + 1) := by omega
      simp [Function.comp, harith]

/-- Unfolding of the summarization stage handler when `processMessage`
throws: the error propagates and nothing is published. -/
theorem summarizationHandler_error (oracle : Nat → AttemptOutcome)
    (extract : String → List String) (msg : Msg) (e : JsErr)
    (h : (processMessage oracle extract msg).result = Except.error e) :
    summarizationHandler oracle extract msg
      = (Except.error e,
        notifIf msg.chatId startSummarizationText NotifKind.progress
          ++ (processMessage oracle extract msg).notifs) := by
  unfold summarizationHandler
  rw [h]

/-- C2 counterexample: a call whose retry budget is exhausted by three
rate-limit failures returns (`Except.ok`) a fallback envelope — with a
placeholder summary, `['unprocessed', 'rate-limited']` tags and the
last error's message in an `error` field — rather than surfacing as a
terminal failure, refuting "it does not return a success value to the
caller". -/
theorem C2_exhaustion_counterexample :
    (processMessage c2Oracle c2Extract c2Msg).result
      = Except.ok { c2Msg with
          summary := some fallbackSummaryText
          tags := ["unprocessed", "rate-limited"]
          resources := []
          error := some "429 Too Many Requests" } := by
  decide

/-- C2 (amended): when the retry budget of 3 attempts is exhausted by
repeated rate-limit failures, `processMessage` does not throw: after
capped exponential sleeps of 1s, 2s and 4s it returns a fallback
envelope whose summary is the placeholder text, whose tags are
`['unprocessed', 'rate-limited']` and whose `error` field carries the
last error's message. -/
theorem C2_exhaustion_returns_fallback :
    ∀ (oracle : Nat → AttemptOutcome) (extract : String → List String) (msg : Msg)
      (m0 m1 m2 : String),
      oracle 0 = AttemptOutcome.rateLimit m0 →
      oracle 1 = AttemptOutcome.rateLimit m1 →
      oracle 2 = AttemptOutcome.rateLimit m2 →
      (processMessage oracle extract msg).result
        = Except.ok { msg with
            summary := some fallbackSummaryText
            tags := ["unprocessed", "rate-limited"]
            resources := extract msg.content
            error := some m2 }
      ∧ (processMessage oracle extract msg).sleeps = [1000, 2000, 4000] := by
  intro oracle extract msg m0 m1 m2 h0 h1 h2
  have e1 := pmAttempts_rateLimit oracle msg (extract msg.content) 2 0 none m0 h0
  have e2 := pmAttempts_rateLimit oracle msg (extract msg.content) 1 1
    (some ⟨m0, none, some 429⟩) m1 h1
  have e3 := pmAttempts_rateLimit oracle msg (extract msg.content) 0 2
    (some ⟨m1, none, some 429⟩) m2 h2
  constructor
  · rw [processMessage_result]
    show (pmAttempts oracle msg (extract msg.content) (2 + 1) 0 none).result = _
    rw [e1]
    show (pmAttempts oracle msg (extract msg.content) (1 + 1) 1
      (some ⟨m0, none, some 429⟩)).result = _
    rw [e2]
    show (pmAttempts oracle msg (extract msg.content) (0 + 1) 2
      (some ⟨m1, none, some 429⟩)).result = _
    rw [e3]
    rfl
  · rw [processMessage_sleeps]
    show (pmAttempts oracle msg (extract msg.content) (2 + 1) 0 none).sleeps = _
    rw [e1]
    show 1000 :: (pmAttempts oracle msg (extract msg.content) (1 + 1) 1
      (some ⟨m0, none, some 429⟩)).sleeps = _
    rw [e2]
    show 1000 :: 2000 :: (pmAttempts oracle msg (extract msg.content) (0 + 1) 2
      (some ⟨m1, none, some 429⟩)).sleeps = _
    rw [e3]
    rfl

/-- C2 (amended) witness: the concrete all-rate-limited run. -/
theorem C2_exhaustion_returns_fallback_witness :
    (processMessage c2Oracle c2Extract c2Msg).result
      = Except.ok { c2Msg with
          summary := some fallbackSummaryText
          tags := ["unprocessed", "rate-limited"]
          resources := c2Extract c2Msg.content
          error := some "429 Too Many Requests" }
    ∧ (processMessage c2Oracle c2Extract c2Msg).sleeps = [1000, 2000, 4000] :=
  C2_exhaustion_returns_fallback c2Oracle c2Extract c2Msg
    "429 Too Many Requests" "429 Too Many Requests" "429 Too Many Requests"
    (by decide) (by decide) (by decide)

/-- C6: an attempt failing with a rate-limit signal while fewer than 3
attempts were made sleeps `min(1000 * 2^attempt, 30000)` and retries —
the loop's sleeps are exactly the capped exponential delays of its
leading rate-limited run, non-decreasing and bounded by the 30s cap —
and a call failing twice with a rate-limit signal then succeeding on
the third attempt returns the success value, having slept twice
(1s then 2s). -/
theorem C6_backoff_retry_then_success :
    (∀ (oracle : Nat → AttemptOutcome) (extract : String → List String) (msg : Msg)
        (m0 m1 s : String) (t : List String),
      oracle 0 = AttemptOutcome.rateLimit m0 →
      oracle 1 = AttemptOutcome.rateLimit m1 →
      oracle 2 = AttemptOutcome.parsedOk s t →
        (processMessage oracle extract msg).result
          = Except.ok { msg with
              summary := some s
              tags := t
              resources := extract msg.content }
        ∧ (processMessage oracle extract msg).sleeps
            = [min (1000 * 2 ^ 0) 30000, min (1000 * 2 ^ 1) 30000]
        ∧ (processMessage oracle extract msg).sleeps = [1000, 2000])
    ∧ (∀ (oracle : Nat → AttemptOutcome) (extract : String → List String) (msg : Msg),
        (processMessage oracle extract msg).sleeps
          = (List.range (lead429 oracle maxRetries 0)).map
              (fun i => min (1000 * 2 ^ i) 30000))
    ∧ (∀ i : Nat, min (1000 * 2 ^ i) 30000 ≤ min (1000 * 2 ^ (i + 1)) 30000)
    ∧ (∀ i : Nat, min (1000 * 2 ^ i) 30000 ≤ 30000) := by
  refine ⟨?_, ?_, ?_, ?_⟩
  · intro oracle extract msg m0 m1 s t h0 h1 h2
    have e1 := pmAttempts_rateLimit oracle msg (extract msg.content) 2 0 none m0 h0
    have e2 := pmAttempts_rateLimit oracle msg (extract msg.content) 1 1
      (some ⟨m0, none, some 429⟩) m1 h1
    have e3 := pmAttempts_parsedOk oracle msg (extract msg.content) 0 2
      (some ⟨m1, none, some 429⟩) s t h2
    refine ⟨?_, ?_, ?_⟩
    · rw [processMessage_result]
      show (pmAttempts oracle msg (extract msg.content) (2 + 1) 0 none).result = _
      rw [e1]
      show (pmAttempts oracle msg (extract msg.content) (1 + 1) 1
        (some ⟨m0, none, some 429⟩)).result = _
      rw [e2]
      show (pmAttempts oracle msg (extract msg.content) (0 + 1) 2
        (some ⟨m1, none, some 429⟩)).result = _
      rw [e3]
    · rw [processMessage_sleeps]
      show (pmAttempts oracle msg (extract msg.content) (2 + 1) 0 none).sleeps = _
      rw [e1]
      show min (1000 * 2 ^ 0) 30000
        :: (pmAttempts oracle msg (extract msg.content) (1 + 1) 1
          (some ⟨m0, none, some 429⟩)).sleeps = _
      rw [e2]
      show min (1000 * 2 ^ 0) 30000 :: min (1000 * 2 ^ 1) 30000
        :: (pmAttempts oracle msg (extract msg.content) (0 + 1) 2
          (some ⟨m1, none, some 429⟩)).sleeps = _
      rw [e3]
    · rw [processMessage_sleeps]
      show (pmAttempts oracle msg (extract msg.content) (2 + 1) 0 none).sleeps = _
      rw [e1]
      show 1000 :: (pmAttempts oracle msg (extract msg.content) (1 + 1) 1
        (some ⟨m0, none, some 429⟩)).sleeps = _
      rw [e2]
      show 1000 :: 2000 :: (pmAttempts oracle msg (extract msg.content) (0 + 1) 2
        (some ⟨m1, none, some 429⟩)).sleeps = _
      rw [e3]
  · intro oracle extract msg
    rw [processMessage_sleeps,
      pmAttempts_sleeps_formula oracle msg (extract msg.content) maxRetries 0 none]
    simp
  · intro i
    have hpow : 1000 * 2 ^ i ≤ 1000 * 2 ^ (i + 1) := by
      have : (2 : Nat) ^ i ≤ 2 ^ (i + 1) := Nat.pow_le_pow_right (by norm_num) (Nat.le_succ i)
      exact Nat.mul_le_mul_left 1000 this
    exact min_le_min hpow (le_refl 30000)
  · intro i
    exact min_le_right _ _

/-- C6 witness: the concrete twice-rate-limited-then-success run. -/
theorem C6_backoff_retry_then_success_witness :
    (processMessage c6Oracle c6Extract c6Msg).result
      = Except.ok { c6Msg with
          summary := some "a summary"
          tags := ["tag1", "tag2"]
          resources := c6Extract c6Msg.content }
    ∧ (processMessage c6Oracle c6Extract c6Msg).sleeps
        = [min (1000 * 2 ^ 0) 30000, min (1000 * 2 ^ 1) 30000]
    ∧ (processMessage c6Oracle c6Extract c6Msg).sleeps = [1000, 2000] :=
  C6_backoff_retry_then_success.1 c6Oracle c6Extract c6Msg "rl" "rl" "a summary"
    ["tag1", "tag2"] (by decide) (by decide) (by decide)

/-- C1 counterexample: with the collaborator returning a parse failure
on every attempt, the summarization stage throws `PARSE_ERROR` — no
envelope is returned or published, so no envelope is ever flagged
`summarizationFailed = true`, and the pipeline's summarization-failure
notification is never sent (zero terminal notifications) — refuting
"the summarization stage flags that envelope
`summarizationFailed=true` … and exactly one failure notification is
sent". -/
theorem C1_parse_failure_counterexample :
    (processMessage c1Oracle c1Extract c1Msg).result = Except.error parseErrJs
    ∧ (summarizationHandler c1Oracle c1Extract c1Msg).1 = Except.error parseErrJs
    ∧ (summarizationHandler c1Oracle c1Extract c1Msg).2.countP
        (fun n => decide (n.text = summFailNotifText)) = 0
    ∧ terminalNotifCount (summarizationHandler c1Oracle c1Extract c1Msg).2 = 0 := by
  decide

/-- C1 (amended): if the summarization collaborator returns a parse
failure, the first attempt throws `PARSE_ERROR` (parse failures carry
no 429 status, so there is no retry and no further attempt), the stage
handler propagates the error — the envelope is never published toward
the archiving stage and no envelope is flagged `summarizationFailed`
(the bus entry is left pending) — and the notifications sent to the
submitting chat are exactly the start and processing progress messages
plus one parse-failure message; the pipeline's terminal failure
notification is not sent. -/
theorem C1_parse_failure_throws :
    ∀ (oracle : Nat → AttemptOutcome) (extract : String → List String) (msg : Msg) (cn : Nat),
      oracle 0 = AttemptOutcome.parseFailure → msg.chatId = some cn →
      summarizationHandler oracle extract msg
        = (Except.error parseErrJs,
          [⟨cn, startSummarizationText, NotifKind.progress⟩,
            ⟨cn, processingNotifText, NotifKind.progress⟩,
            ⟨cn, parseFailNotifText, NotifKind.progress⟩])
      ∧ terminalNotifCount (summarizationHandler oracle extract msg).2 = 0 := by
  intro oracle extract msg cn h0 hc
  have e1 := pmAttempts_parseFailure oracle msg (extract msg.content) 2 0 none h0
  have hres : (processMessage oracle extract msg).result = Except.error parseErrJs := by
    rw [processMessage_result]
    show (pmAttempts oracle msg (extract msg.content) (2 + 1) 0 none).result = _
    rw [e1]
  have hnot : (processMessage oracle extract msg).notifs
      = [⟨cn, processingNotifText, NotifKind.progress⟩,
        ⟨cn, parseFailNotifText, NotifKind.progress⟩] := by
    rw [processMessage_notifs]
    show notifIf msg.chatId processingNotifText NotifKind.progress
      ++ (pmAttempts oracle msg (extract msg.content) (2 + 1) 0 none).notifs = _
    rw [e1, hc]
    simp [notifIf]
  have hmain : summarizationHandler oracle extract msg
      = (Except.error parseErrJs,
        [⟨cn, startSummarizationText, NotifKind.progress⟩,
          ⟨cn, processingNotifText, NotifKind.progress⟩,
          ⟨cn, parseFailNotifText, NotifKind.progress⟩]) := by
    rw [summarizationHandler_error oracle extract msg parseErrJs hres, hnot, hc]
    simp [notifIf]
  exact ⟨hmain, by rw [hmain]; rfl⟩

/-- C1 (amended) witness: the concrete always-parse-failing run. -/
theorem C1_parse_failure_throws_witness :
    summarizationHandler c1Oracle c1Extract c1Msg
      = (Except.error parseErrJs,
        [⟨1, startSummarizationText, NotifKind.progress⟩,
          ⟨1, processingNotifText, NotifKind.progress⟩,
          ⟨1, parseFailNotifText, NotifKind.progress⟩])
    ∧ terminalNotifCount (summarizationHandler c1Oracle c1Extract c1Msg).2 = 0 :=
  C1_parse_failure_throws c1Oracle c1Extract c1Msg 1 (by decide) (by decide)

/-- C4: for every envelope the notion stage handles to a terminal
outcome with a submitting chat present — flagged as irrecoverably
failed at summarization, or archived successfully — exactly one
terminal user-visible notification is sent to that chat: the single
summarization-failure message (and no archiving happens), or the
single archive-success message after the progress message. -/
theorem C4_exactly_one_terminal_notification :
    ∀ (arch : Except JsErr String) (msg : Msg) (cn : Nat),
      msg.chatId = some cn →
      (msg.summarizationFailed = true →
        notionHandler arch msg
          = (Except.ok (), [⟨cn, summFailNotifText, NotifKind.terminalFailure⟩])
        ∧ terminalNotifCount (notionHandler arch msg).2 = 1)
      ∧ (∀ (p pageId : String), msg.summarizationFailed = false →
          msg.platform = some p → ¬p = "" → ¬msg.url = "" → arch = Except.ok pageId →
          notionHandler arch msg
            = (Except.ok (),
              [⟨cn, savingToNotionText, NotifKind.progress⟩,
                ⟨cn, successNotifText (formatPageTitle msg.title msg.summary) p,
                  NotifKind.terminalSuccess⟩])
          ∧ terminalNotifCount (notionHandler arch msg).2 = 1) := by
  intro arch msg cn hc
  constructor
  · intro hf
    have hmain : notionHandler arch msg
        = (Except.ok (), [⟨cn, summFailNotifText, NotifKind.terminalFailure⟩]) := by
      simp [notionHandler, hf, hc, notifIf]
    exact ⟨hmain, by rw [hmain]; rfl⟩
  · intro p pageId hf hp hpne hurl harch
    have hnp : notionProcessMessage arch msg
        = (Except.ok { msg with notionPageId := some pageId },
          [⟨cn, successNotifText (formatPageTitle msg.title msg.summary) p,
            NotifKind.terminalSuccess⟩]) := by
      unfold notionProcessMessage
      rw [hp, harch]
      simp [hpne, hurl, hc, notifIf]
    have hmain : notionHandler arch msg
        = (Except.ok (),
          [⟨cn, savingToNotionText, NotifKind.progress⟩,
            ⟨cn, successNotifText (formatPageTitle msg.title msg.summary) p,
              NotifKind.terminalSuccess⟩]) := by
      unfold notionHandler
      rw [hf, hnp, hc]
      simp [notifIf]
    exact ⟨hmain, by rw [hmain]; rfl⟩

/-- C4 witness: the concrete flagged envelope gets exactly the one
failure notification; the concrete summarized envelope is archived
with exactly the one success notification. -/
theorem C4_exactly_one_terminal_notification_witness :
    (notionHandler (Except.ok "page-1") c4FailedMsg
        = (Except.ok (), [⟨4, summFailNotifText, NotifKind.terminalFailure⟩])
      ∧ terminalNotifCount (notionHandler (Except.ok "page-1") c4FailedMsg).2 = 1)
    ∧ (notionHandler (Except.ok "page-1") c4OkMsg
        = (Except.ok (),
          [⟨4, savingToNotionText, NotifKind.progress⟩,
            ⟨4, successNotifText (formatPageTitle c4OkMsg.title c4OkMsg.summary) "article",
              NotifKind.terminalSuccess⟩])
      ∧ terminalNotifCount (notionHandler (Except.ok "page-1") c4OkMsg).2 = 1) :=
  ⟨(C4_exactly_one_terminal_notification (Except.ok "page-1") c4FailedMsg 4
      (by decide)).1 (by decide),
    (C4_exactly_one_terminal_notification (Except.ok "page-1") c4OkMsg 4
      (by decide)).2 "article" "page-1" (by decide) (by decide) (by decide) (by decide) rfl⟩

end Omni
